import Mathlib

/-!
Verification development for the customer-record reconstruction code in
src/Customer_Service (the sqlite-backed Customer.get_customer classmethod in
entities/customer.py, and the schema plus seed data in setup_database.py).

The relational store is modelled as lists of rows whose cells carry dynamically
typed SQLite values.  The body of get_customer is embedded step by step in the
order of the source: connect, customer-row query, reconstruction of the nested
Address, CommunicationPreferences and optional GardenProfile values, the
purchases and purchase-items queries, and the final assembly line
(return cls(**customer_data)).  Store failures are injected through an explicit
fault parameter naming the query at which sqlite3 raises; the try/except/finally
structure of the source is mirrored by the finishFetch wrapper, which records
whether the connection was opened and closed and which messages were printed.

Note on the final assembly line of the source: the method is declared as a
classmethod whose single parameter is named customer_id, so no name cls is
bound anywhere in scope, and line 155 (return cls(**customer_data)) raises
NameError at runtime.  The embedding keeps that behaviour: the success path of
the body ends in the nameError value rather than in a constructed Customer.
-/

/-- Dynamically typed SQLite cell value, as delivered by sqlite3.Row. -/
inductive SqlValue where
  | null
  | int (i : Int)
  | real (q : Rat)
  | text (s : String)
  deriving DecidableEq

/-- Row of the customers table (all 23 columns of the CREATE TABLE statement). -/
structure CustomerRow where
  customer_id : SqlValue
  account_number : SqlValue
  customer_first_name : SqlValue
  customer_last_name : SqlValue
  email : SqlValue
  phone_number : SqlValue
  customer_start_date : SqlValue
  years_as_customer : SqlValue
  billing_address_street : SqlValue
  billing_address_city : SqlValue
  billing_address_state : SqlValue
  billing_address_zip : SqlValue
  loyalty_points : SqlValue
  preferred_store : SqlValue
  comm_pref_email : SqlValue
  comm_pref_sms : SqlValue
  comm_pref_push : SqlValue
  garden_type : SqlValue
  garden_size : SqlValue
  garden_sun_exposure : SqlValue
  garden_soil_type : SqlValue
  garden_interests : SqlValue
  scheduled_appointments : SqlValue
  deriving DecidableEq

/-- Row of the products table. -/
structure ProductRow where
  product_id : SqlValue
  name : SqlValue
  deriving DecidableEq

/-- Row of the purchases table; purchase_id is an INTEGER PRIMARY KEY. -/
structure PurchaseRow where
  purchase_id : Int
  customer_id : SqlValue
  date : SqlValue
  total_amount : SqlValue
  deriving DecidableEq

/-- Row of the purchase_items linking table. -/
structure PurchaseItemRow where
  purchase_item_id : Int
  purchase_id : Int
  product_id : SqlValue
  quantity : SqlValue
  deriving DecidableEq

/-- The relational store: the four tables, rows kept in storage order. -/
structure Database where
  customers : List CustomerRow
  products : List ProductRow
  purchases : List PurchaseRow
  purchase_items : List PurchaseItemRow
  deriving DecidableEq

/-- Python float values as pydantic stores them (finite values kept exact). -/
inductive PyFloat where
  | finite (q : Rat)
  | inf
  | negInf
  | nan
  deriving DecidableEq

/-- Python-level errors that can escape or be caught inside get_customer. -/
inductive PyError where
  | sqliteError
  | jsonDecodeError
  | typeError
  | validationError
  | nameError (missing : String)
  deriving DecidableEq

/-- Address value object (pydantic model Address). -/
structure Address where
  street : String
  city : String
  state : String
  zip : String
  deriving DecidableEq

/-- Product value object (pydantic model Product). -/
structure Product where
  product_id : String
  name : String
  quantity : Int
  deriving DecidableEq

/-- Purchase value object (pydantic model Purchase). -/
structure Purchase where
  date : String
  items : List Product
  total_amount : PyFloat
  deriving DecidableEq

/-- CommunicationPreferences value object (pydantic model, defaults true). -/
structure CommunicationPreferences where
  email : Bool := true
  sms : Bool := true
  push_notifications : Bool := true
  deriving DecidableEq

/-- GardenProfile value object (pydantic model GardenProfile). -/
structure GardenProfile where
  type : String
  size : String
  sun_exposure : String
  soil_type : String
  interests : List String
  deriving DecidableEq

/-- Customer aggregate (pydantic model Customer); note that it has no
scheduled_appointments field. -/
structure Customer where
  account_number : String
  customer_id : String
  customer_first_name : String
  customer_last_name : String
  email : String
  phone_number : Option String := none
  customer_start_date : String
  years_as_customer : Int
  billing_address : Address
  purchase_history : List Purchase := []
  loyalty_points : Int := 0
  preferred_store : String
  communication_preferences : CommunicationPreferences
  garden_profile : Option GardenProfile := none
  deriving DecidableEq

/-- Python truthiness of an SQLite cell, as used for bool(x) and for the
if customer_row[garden_type] test: None, 0, 0.0 and the empty string are
falsy, everything else is truthy. -/
def pyTruthy : SqlValue → Bool
  | SqlValue.null => false
  | SqlValue.int i => decide (i ≠ 0)
  | SqlValue.real q => decide (q ≠ 0)
  | SqlValue.text s => decide (s ≠ "")

/-- Whitespace characters recognised by the JSON and number parsers. -/
def isWsChar (c : Char) : Bool :=
  c = ' ' || c = '\t' || c = '\n' || c = '\r'

/-- Drop leading whitespace from a character list. -/
def skipWs : List Char → List Char
  | [] => []
  | c :: rest => if isWsChar c then skipWs rest else c :: rest

/-- Drop leading and trailing whitespace from a character list. -/
def stripWs (cs : List Char) : List Char :=
  ((skipWs ((skipWs cs).reverse)).reverse)

/-- Value of a hexadecimal digit, if the character is one. -/
def hexVal : Char → Option Nat
  | c =>
    if c.isDigit then some (c.toNat - 48)
    else if 'a' ≤ c ∧ c ≤ 'f' then some (c.toNat - 87)
    else if 'A' ≤ c ∧ c ≤ 'F' then some (c.toNat - 55)
    else none

/-- Translation of a single-character JSON escape. -/
def escChar : Char → Option Char
  | '"' => some '"'
  | '\\' => some '\\'
  | '/' => some '/'
  | 'b' => some (Char.ofNat 8)
  | 'f' => some (Char.ofNat 12)
  | 'n' => some '\n'
  | 'r' => some '\r'
  | 't' => some '\t'
  | _ => none

/-- Parse the characters of a JSON string after its opening quote; returns the
decoded characters and the input remaining after the closing quote.  Fuel
bounds the recursion; callers pass at least the length of the input plus one,
which is enough since every step consumes at least one character. -/
def jsonStringChars : Nat → List Char → Option (List Char × List Char)
  | 0, _ => none
  | _, [] => none
  | fuel + 1, c :: rest =>
    if c = '"' then some ([], rest)
    else if c = '\\' then
      match rest with
      | [] => none
      | 'u' :: h1 :: h2 :: h3 :: h4 :: rest2 =>
        match hexVal h1, hexVal h2, hexVal h3, hexVal h4 with
        | some n1, some n2, some n3, some n4 =>
          match jsonStringChars fuel rest2 with
          | some (s, r) =>
            some (Char.ofNat (((n1 * 16 + n2) * 16 + n3) * 16 + n4) :: s, r)
          | none => none
        | _, _, _, _ => none
      | e :: rest2 =>
        match escChar e with
        | some ec =>
          match jsonStringChars fuel rest2 with
          | some (s, r) => some (ec :: s, r)
          | none => none
        | none => none
    else if c.toNat < 32 then none
    else
      match jsonStringChars fuel rest with
      | some (s, r) => some (c :: s, r)
      | none => none

/-- Parse the comma-separated string elements of a JSON array, positioned just
before the first element; consumes the closing bracket. -/
def jsonArrayElems : Nat → List Char → Option (List String × List Char)
  | 0, _ => none
  | fuel + 1, cs =>
    match skipWs cs with
    | '"' :: rest =>
      match jsonStringChars fuel rest with
      | some (chars, rest2) =>
        match skipWs rest2 with
        | ',' :: rest3 =>
          match jsonArrayElems fuel rest3 with
          | some (tail, r) => some (String.mk chars :: tail, r)
          | none => none
        | ']' :: rest3 => some ([String.mk chars], rest3)
        | _ => none
      | none => none
    | _ => none

/-- Model of json.loads restricted to the JSON fragment this code consumes:
a top-level array of strings.  Any stored text that is not a JSON array of
strings is reported as a decode failure; for text that real json.loads would
accept as some other JSON value, the subsequent pydantic validation of the
interests field (typed as a list of strings) would reject it anyway, so the
observable behaviour of the fetch, an uncaught construction error, agrees. -/
def json_loads_strlist (s : String) : Option (List String) :=
  match skipWs s.data with
  | '[' :: rest =>
    match skipWs rest with
    | ']' :: rest2 => if (skipWs rest2).isEmpty then some [] else none
    | _ =>
      match jsonArrayElems (s.length + 1) rest with
      | some (elems, r) => if (skipWs r).isEmpty then some elems else none
      | none => none
  | _ => none

/-- Leading run of decimal digits of a character list, and the rest. -/
def takeDigits : List Char → List Char × List Char
  | [] => ([], [])
  | c :: rest =>
    if c.isDigit then
      let (d, r) := takeDigits rest
      (c :: d, r)
    else ([], c :: rest)

/-- Natural number denoted by a list of decimal digits. -/
def digitsToNat (l : List Char) : Nat :=
  l.foldl (fun a c => 10 * a + (c.toNat - 48)) 0

/-- Parse the unsigned decimal part of a Python float literal:
digits [ . digits ] [ (e | E) [ sign ] digits ], with at least one digit in
the mantissa. -/
def parseDecimal (cs : List Char) : Option Rat :=
  let (ip, r1) := takeDigits cs
  let (fp, r2) :=
    match r1 with
    | '.' :: r => takeDigits r
    | _ => ([], r1)
  if ip.isEmpty ∧ fp.isEmpty then none
  else
    let mant : Rat :=
      (digitsToNat ip : Rat) + (digitsToNat fp : Rat) / (10 : Rat) ^ fp.length
    -- r2 equals r1 when no decimal point was consumed
    let hadPoint : Bool := match r1 with | '.' :: _ => true | _ => false
    let rest := if hadPoint then r2 else r1
    match rest with
    | [] => some mant
    | e :: r3 =>
      if e = 'e' ∨ e = 'E' then
        let (eneg, r4) :=
          match r3 with
          | '-' :: r => (true, r)
          | '+' :: r => (false, r)
          | r => (false, r)
        let (ed, r5) := takeDigits r4
        if ed.isEmpty ∨ ¬ r5.isEmpty then none
        else
          let ex := digitsToNat ed
          some (if eneg then mant / (10 : Rat) ^ ex else mant * (10 : Rat) ^ ex)
      else none

/-- Model of the Python float conversion applied by pydantic to a string:
surrounding whitespace is ignored, an optional sign is followed by inf,
infinity, nan (case-insensitive) or a decimal literal. -/
def parsePyFloat (s : String) : Option PyFloat :=
  let cs := stripWs s.data
  let (neg, cs2) :=
    match cs with
    | '-' :: r => (true, r)
    | '+' :: r => (false, r)
    | r => (false, r)
  let lower := cs2.map Char.toLower
  if lower = "inf".data ∨ lower = "infinity".data then
    some (if neg then PyFloat.negInf else PyFloat.inf)
  else if lower = "nan".data then some PyFloat.nan
  else
    match parseDecimal cs2 with
    | some q => some (PyFloat.finite (if neg then -q else q))
    | none => none

/-- Parse an optionally signed run of decimal digits as an integer. -/
def parsePyInt (s : String) : Option Int :=
  let cs := stripWs s.data
  let (neg, cs2) :=
    match cs with
    | '-' :: r => (true, r)
    | '+' :: r => (false, r)
    | r => (false, r)
  if cs2.isEmpty ∨ ¬ cs2.all Char.isDigit then none
  else some (if neg then -(digitsToNat cs2 : Int) else (digitsToNat cs2 : Int))

/-- Pydantic validation of a required str field in lax mode: only actual
strings are accepted, anything else is a validation error. -/
def validateStr : SqlValue → Except PyError String
  | SqlValue.text s => Except.ok s
  | _ => Except.error PyError.validationError

/-- Pydantic validation of an int field in lax mode: integers pass, floats
pass when their fractional part is zero, numeric strings are coerced. -/
def validateInt : SqlValue → Except PyError Int
  | SqlValue.int i => Except.ok i
  | SqlValue.real q =>
    if q.den = 1 then Except.ok q.num else Except.error PyError.validationError
  | SqlValue.text s =>
    match parsePyInt s with
    | some i => Except.ok i
    | none => Except.error PyError.validationError
  | SqlValue.null => Except.error PyError.validationError

/-- Pydantic validation of a float field in lax mode: ints and reals pass,
strings are coerced through the Python float conversion. -/
def validateFloat : SqlValue → Except PyError PyFloat
  | SqlValue.int i => Except.ok (PyFloat.finite (i : Rat))
  | SqlValue.real q => Except.ok (PyFloat.finite q)
  | SqlValue.text s =>
    match parsePyFloat s with
    | some f => Except.ok f
    | none => Except.error PyError.validationError
  | SqlValue.null => Except.error PyError.validationError

/-- Injected store failure: names the sqlite3 call, in source order, at which
the relational store raises.  onItemsQuery k fires when the purchase-items
query of the k-th purchase row (0-based) is executed. -/
inductive StoreFault where
  | noFault
  | onConnect
  | onCustomerQuery
  | onPurchasesQuery
  | onItemsQuery (k : Nat)
  deriving DecidableEq

/-- How a call to get_customer ends: a returned value (the Optional Customer)
or an uncaught Python exception. -/
inductive FetchOutcome where
  | ret (c : Option Customer)
  | raise (e : PyError)
  deriving DecidableEq

/-- Observable result of one call: its outcome, whether the sqlite connection
was opened and whether it was closed, and the messages printed. -/
structure FetchResult where
  outcome : FetchOutcome
  connOpened : Bool
  connClosed : Bool
  log : List String
  deriving DecidableEq

/-- Message printed on the not-found path (line 97 of the source). -/
def notFoundMsg (id : String) : String :=
  "Customer with ID " ++ id ++ " not found."

/-- Message printed by the except branch (line 158 of the source). -/
def dbErrorMsg : String :=
  "Database error"

/-- The customers query: SELECT * FROM customers WHERE customer_id = ?
followed by fetchone, so the first row whose customer_id cell equals the
bound text parameter. -/
def queryCustomer (db : Database) (id : String) : Option CustomerRow :=
  db.customers.find? (fun r => decide (r.customer_id = SqlValue.text id))

/-- The purchases query: SELECT * FROM purchases WHERE customer_id = ?
followed by fetchall, in storage order. -/
def queryPurchases (db : Database) (id : String) : List PurchaseRow :=
  db.purchases.filter (fun p => decide (p.customer_id = SqlValue.text id))

/-- The per-purchase item query: purchase_items rows with the given
purchase_id, inner-joined with products on product_id. -/
def joinItemRows (db : Database) (pid : Int) : List (PurchaseItemRow × ProductRow) :=
  (db.purchase_items.filter (fun i => decide (i.purchase_id = pid))).flatMap
    (fun i =>
      (db.products.filter (fun p => decide (p.product_id = i.product_id))).map
        (fun p => (i, p)))

/-- Reconstruction of the Address from the four flattened columns
(lines 101 to 106 of the source): each field is validated as str. -/
def mkBillingAddress (row : CustomerRow) : Except PyError Address := do
  let street ← validateStr row.billing_address_street
  let city ← validateStr row.billing_address_city
  let state ← validateStr row.billing_address_state
  let zip ← validateStr row.billing_address_zip
  Except.ok { street := street, city := city, state := state, zip := zip }

/-- Reconstruction of the CommunicationPreferences (lines 108 to 112): each
flag is the Python bool conversion of its flattened column, so this cannot
fail. -/
def mkCommPrefs (row : CustomerRow) : CommunicationPreferences :=
  { email := pyTruthy row.comm_pref_email
    sms := pyTruthy row.comm_pref_sms
    push_notifications := pyTruthy row.comm_pref_push }

/-- Conditional reconstruction of the GardenProfile (lines 114 to 122): built
only when garden_type is truthy; json.loads runs while the constructor
arguments are evaluated (TypeError on a non-text cell, decode error on text
that is not valid JSON), then the string fields are validated. -/
def mkGardenProfile (row : CustomerRow) : Except PyError (Option GardenProfile) :=
  if pyTruthy row.garden_type then do
    let raw ←
      match row.garden_interests with
      | SqlValue.text s => Except.ok s
      | _ => Except.error PyError.typeError
    let interests ←
      match json_loads_strlist raw with
      | some l => Except.ok l
      | none => Except.error PyError.jsonDecodeError
    let ty ← validateStr row.garden_type
    let size ← validateStr row.garden_size
    let sun ← validateStr row.garden_sun_exposure
    let soil ← validateStr row.garden_soil_type
    Except.ok (some { type := ty, size := size, sun_exposure := sun,
                      soil_type := soil, interests := interests })
  else Except.ok none

/-- Construction of one Product line item from a joined row (line 138). -/
def mkProduct (ip : PurchaseItemRow × ProductRow) : Except PyError Product := do
  let pid ← validateStr ip.1.product_id
  let name ← validateStr ip.2.name
  let qty ← validateInt ip.1.quantity
  Except.ok { product_id := pid, name := name, quantity := qty }

/-- The purchase-history loop (lines 129 to 146): for each purchase row, run
the item query (where an injected fault can fire), construct the Product line
items, then the Purchase with its validated date and total_amount. -/
def buildHistory (db : Database) (fault : StoreFault) :
    List PurchaseRow → Nat → Except PyError (List Purchase)
  | [], _ => Except.ok []
  | p :: rest, k =>
    if fault = StoreFault.onItemsQuery k then Except.error PyError.sqliteError
    else do
      let items ← (joinItemRows db p.purchase_id).mapM mkProduct
      let date ← validateStr p.date
      let total ← validateFloat p.total_amount
      let tail ← buildHistory db fault rest (k + 1)
      Except.ok ({ date := date, items := items, total_amount := total } :: tail)

/-- Everything the body does after the customer row has been fetched
(lines 100 to 155): reconstruct the three substructures, query and build the
purchase history, then execute the final assembly line.  That line,
return cls(**customer_data), raises NameError because no name cls is in scope
(the classmethod binds the class to the parameter named customer_id), so the
success path ends in nameError and never yields a Customer. -/
def buildFromRow (row : CustomerRow) (db : Database) (id : String)
    (fault : StoreFault) : Except PyError (Option Customer) := do
  let _addr ← mkBillingAddress row
  let _prefs := mkCommPrefs row
  let _garden ← mkGardenProfile row
  if fault = StoreFault.onPurchasesQuery then throw PyError.sqliteError
  let _history ← buildHistory db fault (queryPurchases db id) 0
  throw (PyError.nameError "cls")

/-- The try block of get_customer after the connection has been opened: an
injected fault on the customer query raises, a missing row returns None with
the not-found message printed, otherwise the body proceeds from the row. -/
def tryBody (id : String) (db : Database) (fault : StoreFault) :
    Except PyError (Option Customer) × List String :=
  if fault = StoreFault.onCustomerQuery then (Except.error PyError.sqliteError, [])
  else
    match queryCustomer db id with
    | none => (Except.ok none, [notFoundMsg id])
    | some row => (buildFromRow row db id fault, [])

/-- The except and finally clauses (lines 157 to 162) applied to the result of
the try block: sqlite3.Error is caught, logged and turned into None, every
other exception propagates, and the opened connection is closed either way. -/
def finishFetch : Except PyError (Option Customer) × List String → FetchResult
  | (Except.ok c, l) =>
    { outcome := FetchOutcome.ret c, connOpened := true, connClosed := true,
      log := l }
  | (Except.error PyError.sqliteError, l) =>
    { outcome := FetchOutcome.ret none, connOpened := true, connClosed := true,
      log := l ++ [dbErrorMsg] }
  | (Except.error e, l) =>
    { outcome := FetchOutcome.raise e, connOpened := true, connClosed := true,
      log := l }

/-- The whole of Customer.get_customer, as a function of the identifier the
body treats as the lookup key, the state of the relational store, and the
injected store fault.  When the connect call itself fails, conn is still None,
so the finally clause does not close anything and the except clause returns
None after logging. -/
def get_customer (id : String) (db : Database) (fault : StoreFault) : FetchResult :=
  if fault = StoreFault.onConnect then
    { outcome := FetchOutcome.ret none, connOpened := false, connClosed := false,
      log := [dbErrorMsg] }
  else finishFetch (tryBody id db fault)

/-- A store with no rows at all. -/
def emptyDb : Database :=
  { customers := [], products := [], purchases := [], purchase_items := [] }

/-- The CUST001 customer row exactly as setup_database.py inserts it; note
that garden_interests holds a comma-delimited string, not JSON, and
scheduled_appointments holds the serialization of an empty dict. -/
def seedRow : CustomerRow :=
  { customer_id := SqlValue.text "CUST001"
    account_number := SqlValue.text "ACC12345"
    customer_first_name := SqlValue.text "John"
    customer_last_name := SqlValue.text "Smith"
    email := SqlValue.text "john.smith@email.com"
    phone_number := SqlValue.text "555-0123"
    customer_start_date := SqlValue.text "2020-05-01"
    years_as_customer := SqlValue.int 4
    billing_address_street := SqlValue.text "123 Garden Lane"
    billing_address_city := SqlValue.text "Springfield"
    billing_address_state := SqlValue.text "IL"
    billing_address_zip := SqlValue.text "62701"
    loyalty_points := SqlValue.int 250
    preferred_store := SqlValue.text "Springfield Garden Center"
    comm_pref_email := SqlValue.int 1
    comm_pref_sms := SqlValue.int 0
    comm_pref_push := SqlValue.int 1
    garden_type := SqlValue.text "Vegetable Garden"
    garden_size := SqlValue.text "Medium"
    garden_sun_exposure := SqlValue.text "Full Sun"
    garden_soil_type := SqlValue.text "Loamy"
    garden_interests := SqlValue.text "Organic Gardening,Composting,Herb Growing"
    scheduled_appointments := SqlValue.text "\x7b\x7d" }

/-- The store exactly as setup_database.py seeds it: the CUST001 row, six
products, three purchases and six purchase-item lines. -/
def seedDb : Database :=
  { customers := [seedRow]
    products :=
      [ { product_id := SqlValue.text "fert-111",
          name := SqlValue.text "All-Purpose Fertilizer" }
      , { product_id := SqlValue.text "trowel-222",
          name := SqlValue.text "Gardening Trowel" }
      , { product_id := SqlValue.text "seeds-333",
          name := SqlValue.text "Tomato Seeds (Variety Pack)" }
      , { product_id := SqlValue.text "pots-444",
          name := SqlValue.text "Terracotta Pots (6-inch)" }
      , { product_id := SqlValue.text "gloves-555",
          name := SqlValue.text "Gardening Gloves (Leather)" }
      , { product_id := SqlValue.text "pruner-666",
          name := SqlValue.text "Pruning Shears" } ]
    purchases :=
      [ { purchase_id := 1, customer_id := SqlValue.text "CUST001",
          date := SqlValue.text "2023-03-05", total_amount := SqlValue.real (3598 / 100) }
      , { purchase_id := 2, customer_id := SqlValue.text "CUST001",
          date := SqlValue.text "2023-07-12", total_amount := SqlValue.real (4250 / 100) }
      , { purchase_id := 3, customer_id := SqlValue.text "CUST001",
          date := SqlValue.text "2024-01-20", total_amount := SqlValue.real (5525 / 100) } ]
    purchase_items :=
      [ { purchase_item_id := 1, purchase_id := 1,
          product_id := SqlValue.text "fert-111", quantity := SqlValue.int 1 }
      , { purchase_item_id := 2, purchase_id := 1,
          product_id := SqlValue.text "trowel-222", quantity := SqlValue.int 1 }
      , { purchase_item_id := 3, purchase_id := 2,
          product_id := SqlValue.text "seeds-333", quantity := SqlValue.int 2 }
      , { purchase_item_id := 4, purchase_id := 2,
          product_id := SqlValue.text "pots-444", quantity := SqlValue.int 4 }
      , { purchase_item_id := 5, purchase_id := 3,
          product_id := SqlValue.text "gloves-555", quantity := SqlValue.int 1 }
      , { purchase_item_id := 6, purchase_id := 3,
          product_id := SqlValue.text "pruner-666", quantity := SqlValue.int 1 } ] }

/-- The seed row with its garden_interests cell replaced by the actual JSON
serialization of the three interests, making every stored field well-formed
for the reconstruction. -/
def wellFormedRow : CustomerRow :=
  { seedRow with
    garden_interests :=
      SqlValue.text "[\"Organic Gardening\", \"Composting\", \"Herb Growing\"]" }

/-- The seeded store with the well-formed customer row. -/
def wellFormedDb : Database :=
  { seedDb with customers := [wellFormedRow] }

/-- A customer row whose garden_type cell is the empty string (falsy). -/
def noGardenRow : CustomerRow :=
  { seedRow with garden_type := SqlValue.text "" }

/-- Errors raised while constructing the nested values from stored fields:
the json decode failure, the TypeError from json.loads on a non-text cell,
and the pydantic validation failure.  The sqlite error and the NameError of
the final assembly line are not construction errors. -/
def isConstructionError : PyError → Bool
  | PyError.jsonDecodeError => true
  | PyError.typeError => true
  | PyError.validationError => true
  | _ => false

/-- Helper: the try block always runs to the finally clause, so whenever the
connection was opened by finishFetch paths it is also closed. -/
theorem finishFetch_conn (x : Except PyError (Option Customer) × List String) :
    (finishFetch x).connOpened = true ∧ (finishFetch x).connClosed = true := by
  rcases x with ⟨r, l⟩
  cases r with
  | ok c => exact ⟨rfl, rfl⟩
  | error e => cases e <;> exact ⟨rfl, rfl⟩

/-- Claim C8: on every exit path of get_customer, the connection is closed
exactly when it was opened; in particular every path that opened the
connection closes it before the call completes, including the not-found
return, caught store errors and uncaught construction errors. -/
theorem c8_connection_closed_iff_opened (id : String) (db : Database)
    (fault : StoreFault) :
    (get_customer id db fault).connClosed = (get_customer id db fault).connOpened := by
  unfold get_customer
  split
  · rfl
  · rw [(finishFetch_conn _).1, (finishFetch_conn _).2]

/-- Claim C10: a comm_pref column holding the integer n reconstructs to a
true flag exactly when n is non-zero, for each of the three flags. -/
theorem c10_comm_pref_flag_iff_nonzero (row : CustomerRow) (n : Int) :
    ((mkCommPrefs { row with comm_pref_email := SqlValue.int n }).email = true ↔ n ≠ 0) ∧
    ((mkCommPrefs { row with comm_pref_sms := SqlValue.int n }).sms = true ↔ n ≠ 0) ∧
    ((mkCommPrefs { row with comm_pref_push := SqlValue.int n }).push_notifications = true ↔ n ≠ 0) := by
  simp [mkCommPrefs, pyTruthy]

/-- Claim C2: no store-level error ever propagates to the caller; a connect
failure and any sqlite error raised inside the try block are caught, logged,
and collapsed into the same absent (None) return as the not-found case. -/
theorem c2_store_errors_caught_logged_absent (id : String) (db : Database)
    (fault : StoreFault) :
    (get_customer id db fault).outcome ≠ FetchOutcome.raise PyError.sqliteError ∧
    (fault = StoreFault.onConnect →
      get_customer id db fault =
        { outcome := FetchOutcome.ret none, connOpened := false,
          connClosed := false, log := [dbErrorMsg] }) ∧
    (fault ≠ StoreFault.onConnect →
      (tryBody id db fault).1 = Except.error PyError.sqliteError →
      get_customer id db fault =
        { outcome := FetchOutcome.ret none, connOpened := true,
          connClosed := true, log := (tryBody id db fault).2 ++ [dbErrorMsg] }) := by
  refine ⟨?_, ?_, ?_⟩
  · unfold get_customer
    split
    · simp
    · rcases h : tryBody id db fault with ⟨r, l⟩
      cases r with
      | ok c => simp [finishFetch]
      | error e => cases e <;> simp [finishFetch]
  · intro hf
    simp [get_customer, hf]
  · intro hf he
    unfold get_customer
    rw [if_neg hf]
    rcases h : tryBody id db fault with ⟨r, l⟩
    rw [h] at he
    simp only at he
    subst he
    simp [finishFetch, h]

/-- Witness for claim C2 at a concrete input: a store failure on the customer
query against the empty store collapses to the absent result with the error
logged and the connection closed. -/
theorem c2_store_error_witness :
    get_customer "CUST001" emptyDb StoreFault.onCustomerQuery =
      { outcome := FetchOutcome.ret none, connOpened := true,
        connClosed := true, log := [dbErrorMsg] } := by
  have h := (c2_store_errors_caught_logged_absent "CUST001" emptyDb
    StoreFault.onCustomerQuery).2.2 (by decide) (by rfl)
  exact h

/-- Claim C3: a customer_id with no matching row in the customers table
yields the absent (None) return on the normal path, with the not-found
message printed and no exception raised. -/
theorem c3_not_found_returns_absent (id : String) (db : Database)
    (h : queryCustomer db id = none) :
    get_customer id db StoreFault.noFault =
      { outcome := FetchOutcome.ret none, connOpened := true,
        connClosed := true, log := [notFoundMsg id] } := by
  simp [get_customer, tryBody, finishFetch, h]

/-- Witness for claim C3 at a concrete input: fetching from the empty store
returns the absent result. -/
theorem c3_not_found_witness :
    get_customer "CUST001" emptyDb StoreFault.noFault =
      { outcome := FetchOutcome.ret none, connOpened := true,
        connClosed := true, log := [notFoundMsg "CUST001"] } :=
  c3_not_found_returns_absent "CUST001" emptyDb rfl

/-- Claim C5: when the matching customer row is malformed, that is, the
reconstruction of the nested values from the stored fields fails with a
construction error (json decode failure, TypeError or pydantic validation
failure), get_customer raises that error to its caller instead of collapsing
it into the absent result; only sqlite errors are caught. -/
theorem c5_malformed_row_error_propagates (id : String) (db : Database)
    (row : CustomerRow) (e : PyError)
    (hq : queryCustomer db id = some row)
    (hb : buildFromRow row db id StoreFault.noFault = Except.error e)
    (he : isConstructionError e = true) :
    get_customer id db StoreFault.noFault =
      { outcome := FetchOutcome.raise e, connOpened := true,
        connClosed := true, log := [] } := by
  cases e with
  | sqliteError => simp [isConstructionError] at he
  | nameError s => simp [isConstructionError] at he
  | jsonDecodeError => simp [get_customer, tryBody, finishFetch, hq, hb]
  | typeError => simp [get_customer, tryBody, finishFetch, hq, hb]
  | validationError => simp [get_customer, tryBody, finishFetch, hq, hb]

/-- Witness for claim C5 at a concrete input: the seed row inserted by
setup_database.py stores garden_interests as a comma-delimited blob rather
than JSON, so its reconstruction fails with a json decode error and the fetch
raises it (with the connection still closed). -/
theorem c5_malformed_witness :
    queryCustomer seedDb "CUST001" = some seedRow ∧
    buildFromRow seedRow seedDb "CUST001" StoreFault.noFault =
      Except.error PyError.jsonDecodeError ∧
    isConstructionError PyError.jsonDecodeError = true ∧
    get_customer "CUST001" seedDb StoreFault.noFault =
      { outcome := FetchOutcome.raise PyError.jsonDecodeError, connOpened := true,
        connClosed := true, log := [] } :=
  ⟨rfl, rfl, rfl,
    c5_malformed_row_error_propagates "CUST001" seedDb seedRow
      PyError.jsonDecodeError rfl rfl rfl⟩

/-- Claim C6: when the garden_type cell of a customer row is falsy (null or
the empty string), the garden profile reconstructed for it is entirely absent,
and none of the other garden columns influences the body of the fetch: the
result of the reconstruction is unchanged under arbitrary replacement of the
garden_size, garden_sun_exposure, garden_soil_type and garden_interests
cells. -/
theorem c6_falsy_garden_type_no_profile (row : CustomerRow) (db : Database)
    (id : String) (fault : StoreFault) (a b c d : SqlValue)
    (h : pyTruthy row.garden_type = false) :
    mkGardenProfile row = Except.ok none ∧
    buildFromRow { row with garden_size := a, garden_sun_exposure := b,
                            garden_soil_type := c, garden_interests := d }
        db id fault =
      buildFromRow row db id fault := by
  have h1 : mkGardenProfile row = Except.ok none := by
    simp [mkGardenProfile, h]
  have h2 : mkGardenProfile { row with garden_size := a, garden_sun_exposure := b,
                                       garden_soil_type := c, garden_interests := d } =
      Except.ok none := by
    simp [mkGardenProfile, h]
  refine ⟨h1, ?_⟩
  simp only [buildFromRow, h1, h2]
  rfl

/-- Witness for claim C6 at a concrete input: the seed row with an empty
garden_type cell produces no garden profile, and nulling out every other
garden column leaves the reconstruction unchanged. -/
theorem c6_falsy_garden_witness :
    mkGardenProfile noGardenRow = Except.ok none ∧
    buildFromRow { noGardenRow with garden_size := SqlValue.null,
                                    garden_sun_exposure := SqlValue.null,
                                    garden_soil_type := SqlValue.null,
                                    garden_interests := SqlValue.null }
        seedDb "CUST001" StoreFault.noFault =
      buildFromRow noGardenRow seedDb "CUST001" StoreFault.noFault :=
  c6_falsy_garden_type_no_profile noGardenRow seedDb "CUST001" StoreFault.noFault
    SqlValue.null SqlValue.null SqlValue.null SqlValue.null rfl

/-- Replace the scheduled_appointments cell of every customers row by an
arbitrary function of the row; two stores identical except in that column are
a store and its image under such a replacement. -/
def setSchedApp (f : CustomerRow → SqlValue) (db : Database) : Database :=
  { db with customers :=
      db.customers.map (fun r => { r with scheduled_appointments := f r }) }

/-- Helper: the customer-row query commutes with a scheduled_appointments
replacement, because the lookup examines only the customer_id cell. -/
theorem queryCustomer_setSchedApp (f : CustomerRow → SqlValue) (db : Database)
    (id : String) :
    queryCustomer (setSchedApp f db) id =
      (queryCustomer db id).map
        (fun r => { r with scheduled_appointments := f r }) := by
  unfold queryCustomer setSchedApp
  rw [List.find?_map]
  rfl

/-- Helper: the purchase-history loop reads only the purchases, purchase_items
and products tables, which a scheduled_appointments replacement leaves
untouched. -/
theorem buildHistory_setSchedApp (f : CustomerRow → SqlValue) (db : Database)
    (fault : StoreFault) (l : List PurchaseRow) (k : Nat) :
    buildHistory (setSchedApp f db) fault l k = buildHistory db fault l k := by
  induction l generalizing k with
  | nil => rfl
  | cons p rest ih =>
    unfold buildHistory
    simp only [ih]
    rfl

/-- Helper: the body after the row fetch never reads the
scheduled_appointments cell of the row, nor the customers table again. -/
theorem buildFromRow_setSchedApp (f : CustomerRow → SqlValue) (db : Database)
    (row : CustomerRow) (id : String) (fault : StoreFault) :
    buildFromRow { row with scheduled_appointments := f row }
        (setSchedApp f db) id fault =
      buildFromRow row db id fault := by
  unfold buildFromRow
  simp only [buildHistory_setSchedApp]
  rfl

/-- Claim C9: the scheduled_appointments column never influences the result
of get_customer; replacing its value in every customers row (in particular in
the fetched row) leaves the entire fetch result unchanged, and the Customer
model itself has no scheduled_appointments field. -/
theorem c9_scheduled_appointments_unread (id : String) (db : Database)
    (fault : StoreFault) (f : CustomerRow → SqlValue) :
    get_customer id (setSchedApp f db) fault = get_customer id db fault := by
  unfold get_customer
  by_cases hf : fault = StoreFault.onConnect
  · rw [if_pos hf, if_pos hf]
  · rw [if_neg hf, if_neg hf]
    have ht : tryBody id (setSchedApp f db) fault = tryBody id db fault := by
      unfold tryBody
      by_cases hq : fault = StoreFault.onCustomerQuery
      · rw [if_pos hq, if_pos hq]
      · rw [if_neg hq, if_neg hq, queryCustomer_setSchedApp]
        cases queryCustomer db id with
        | none => rfl
        | some row =>
          show (buildFromRow { row with scheduled_appointments := f row }
              (setSchedApp f db) id fault, ([] : List String)) =
            (buildFromRow row db id fault, ([] : List String))
          rw [buildFromRow_setSchedApp]
    rw [ht]

/-- Claim C1 (code bug): on a store whose CUST001 row is fully well-formed,
the fetch does not return the reconstructed Customer; it raises
NameError for the unbound name cls, because the classmethod binds the class
to its only parameter customer_id and line 155 references cls, which exists
in no scope.  The connection is still closed by the finally clause. -/
theorem c1_well_formed_fetch_raises_name_error :
    get_customer "CUST001" wellFormedDb StoreFault.noFault =
      { outcome := FetchOutcome.raise (PyError.nameError "cls"),
        connOpened := true, connClosed := true, log := [] } := by
  decide

/-- Claim C4 (code bug): when the garden_interests cell stores the JSON
serialization of the three interest strings, the GardenProfile built during
the fetch carries exactly those three strings in order, but the fetch then
raises NameError at the assembly line instead of returning a Customer that
contains the profile. -/
theorem c4_garden_interests_deserialized_but_fetch_raises :
    mkGardenProfile wellFormedRow =
      Except.ok (some { type := "Vegetable Garden", size := "Medium",
                        sun_exposure := "Full Sun", soil_type := "Loamy",
                        interests := ["Organic Gardening", "Composting",
                                      "Herb Growing"] }) ∧
    (get_customer "CUST001" wellFormedDb StoreFault.noFault).outcome =
      FetchOutcome.raise (PyError.nameError "cls") :=
  ⟨rfl, by decide⟩

/-- Claim C7 (code bug): the CommunicationPreferences built from a row stored
with comm_pref_email equal to 1, comm_pref_sms equal to 0 and comm_pref_push
equal to 1 is email true, sms false, push true, but the fetch raises
NameError at the assembly line instead of yielding a Customer carrying it. -/
theorem c7_comm_prefs_built_but_fetch_raises :
    mkCommPrefs wellFormedRow =
      { email := true, sms := false, push_notifications := true } ∧
    (get_customer "CUST001" wellFormedDb StoreFault.noFault).outcome =
      FetchOutcome.raise (PyError.nameError "cls") :=
  ⟨rfl, by decide⟩
